import Mathlib

/-!
# Verification of the face-swap backend service

A shallow embedding, in Lean 4, of the decision logic of the face-swap
backend repository: the Snowflake ID generator (`utils/snowflake.py`), the
task-tracking HTTP client (`alert.py`), the queue-message validation and
callback of the consumer (`pubsub/baseconsumer.py`), the media inspection
utility (`utils/ffmpeg.py`), the storage manager (`storage/manager.py`),
the multi-reference face-mapping branch of the customized face-swap
processor (`facefusion/processors/modules/face_swapper.py`) and the
serverless job handler (`runpod_handler.py`).

Python functions are translated into executable Lean definitions; external
effects (HTTP responses, the wall clock, subprocess results) are passed in
as explicit inputs, and observable side effects (database writes, task
tracker updates, file re-encodings, face swaps) are returned as explicit
event values.  Machine integers are modelled as `Nat`/`Int` (Python ints
are unbounded, so no wrap-around modelling is needed); fractional
quantities (aspect ratios, similarity scores) are modelled as `ℚ`.
-/

namespace FaceFusionSpec

/-! ## Snowflake ID generator (`utils/snowflake.py`)

`Snowflake.__init__` fixes the bit layout constants
(`SEQUENCE_BITS = 12`, `WORKER_ID_BITS = 5`, `DATACENTER_ID_BITS = 5`,
hence `WORKER_ID_SHIFT = 12`, `DATACENTER_ID_SHIFT = 17`,
`TIMESTAMP_SHIFT = 22`) and validates `datacenter_id`/`worker_id`
against `[0, 31]`.  `generate_id` reads the clock, pins a backward clock
to `last_timestamp`, increments the 12-bit sequence inside one
millisecond (busy-waiting for the next millisecond when it wraps to 0)
and assembles the ID as
`((timestamp - EPOCH) << 22) | (datacenter_id << 17) | (worker_id << 12) | sequence`.
-/

/-- The custom epoch `1287187200000` (2010-10-16T00:00:00Z, milliseconds),
the default of `Snowflake.__init__`. -/
def EPOCH : Int := 1287187200000

/-- State of one `Snowflake` generator instance: the configured
`datacenter_id` and `worker_id`, the per-millisecond `sequence` counter
and `last_timestamp` (initialised to `-1`, hence `Int`). -/
structure Snowflake where
  datacenterId : Nat
  workerId : Nat
  sequence : Nat
  lastTimestamp : Int
  deriving Repr, DecidableEq

/-- `Snowflake.__init__` with the default epoch: rejects
`datacenter_id`/`worker_id` outside `[0, 31]` (`ValueError`), otherwise
starts with `sequence = 0` and `last_timestamp = -1`. -/
def Snowflake.init (datacenterId workerId : Nat) : Option Snowflake :=
  if datacenterId > 31 then none
  else if workerId > 31 then none
  else some ⟨datacenterId, workerId, 0, -1⟩

/-- The ID assembly expression of `generate_id`,
`((timestamp - EPOCH) << TIMESTAMP_SHIFT) | (datacenter_id << DATACENTER_ID_SHIFT) | (worker_id << WORKER_ID_SHIFT) | sequence`,
with `tsOff = timestamp - EPOCH`.  Python evaluates it over unbounded
signed integers; for `timestamp ≥ EPOCH` (the only case a millisecond
wall clock can produce, and the regime every theorem below assumes) the
offset is a natural number and the expression is this `Nat` term. -/
def snowflake_id (tsOff : Nat) (datacenterId workerId seq : Nat) : Nat :=
  (tsOff <<< 22) ||| (datacenterId <<< 17) ||| (workerId <<< 12) ||| seq

/-- The clock-pinning step of `generate_id`:
`if timestamp < self.last_timestamp: timestamp = self.last_timestamp`. -/
def Snowflake.effTs (g : Snowflake) (t : Int) : Int :=
  if t < g.lastTimestamp then g.lastTimestamp else t

/-- The `(sequence, timestamp)` pair `generate_id` commits to its state:
inside the same millisecond the 12-bit sequence is bumped
(`(sequence + 1) & MAX_SEQUENCE`), and on a wrap to 0 the timestamp is
replaced by the `_wait_next_millis` result `tw`; in a fresh millisecond
the sequence resets to 0. -/
def Snowflake.nextPair (g : Snowflake) (t tw : Int) : Nat × Int :=
  if g.effTs t = g.lastTimestamp then
    if (g.sequence + 1) &&& 4095 = 0 then (0, tw)
    else ((g.sequence + 1) &&& 4095, g.effTs t)
  else (0, g.effTs t)

/-- One `generate_id` call.  `t` is the clock reading returned by
`_current_time()`; `tw` is the value `_wait_next_millis(last_timestamp)`
would return if the sequence wraps (its loop guarantees
`tw > last_timestamp`, which the theorems assume as a hypothesis).
Returns the generated ID and the updated generator state. -/
def Snowflake.generate_id (g : Snowflake) (t tw : Int) : Nat × Snowflake :=
  (snowflake_id ((g.nextPair t tw).2 - EPOCH).toNat
      g.datacenterId g.workerId (g.nextPair t tw).1,
    { g with sequence := (g.nextPair t tw).1,
             lastTimestamp := (g.nextPair t tw).2 })

/-- Run a sequence of `generate_id` calls; each input pairs the clock
reading with the would-be `_wait_next_millis` result for that call. -/
def Snowflake.runGen (g : Snowflake) : List (Int × Int) → List Nat × Snowflake
  | [] => ([], g)
  | i :: rest =>
    let (id, g') := g.generate_id i.1 i.2
    let (ids, g'') := g'.runGen rest
    (id :: ids, g'')

/-- Validity of a trace of clock observations: every clock reading is at
or after the custom epoch (true of any real millisecond clock), and each
`_wait_next_millis` result is strictly after the `last_timestamp` seen at
that point (the postcondition of its busy-wait loop). -/
def Snowflake.traceOk (g : Snowflake) : List (Int × Int) → Bool
  | [] => true
  | (t, tw) :: rest =>
    EPOCH ≤ t && g.lastTimestamp < tw && EPOCH ≤ tw &&
      ((g.generate_id t tw).2.traceOk rest)

/-- Reachable-state invariant of one generator instance. -/
def Snowflake.Inv (g : Snowflake) : Prop :=
  g.sequence < 4096 ∧ (g.lastTimestamp = -1 ∨ EPOCH ≤ g.lastTimestamp)

/-- `x <<< k ||| y = x * 2 ^ k + y` when `y` fits in `k` bits. -/
theorem shiftLeft_or_eq_add (x y k : Nat) (h : y < 2 ^ k) :
    (x <<< k) ||| y = x * 2 ^ k + y := by
  rw [Nat.shiftLeft_eq, Nat.mul_comm, ← Nat.mul_add_lt_is_or h]

/-- Closed arithmetic form of the assembled ID. -/
theorem snowflake_id_eq (tsOff d w s : Nat) (hd : d ≤ 31) (hw : w ≤ 31)
    (hs : s < 4096) :
    snowflake_id tsOff d w s =
      tsOff * 2 ^ 22 + d * 2 ^ 17 + w * 2 ^ 12 + s := by
  unfold snowflake_id
  rw [Nat.lor_assoc, Nat.lor_assoc]
  have hws : (w <<< 12) ||| s = w * 2 ^ 12 + s := by
    exact shiftLeft_or_eq_add w s 12 (by omega)
  rw [hws]
  have h1 : w * 2 ^ 12 + s < 2 ^ 17 := by omega
  have hds : (d <<< 17) ||| (w * 2 ^ 12 + s) = d * 2 ^ 17 + (w * 2 ^ 12 + s) :=
    shiftLeft_or_eq_add d _ 17 h1
  rw [hds]
  have h2 : d * 2 ^ 17 + (w * 2 ^ 12 + s) < 2 ^ 22 := by omega
  rw [shiftLeft_or_eq_add tsOff _ 22 h2]
  omega

/-- Decoding the worker id and datacenter id from an assembled ID. -/
theorem snowflake_id_decode (tsOff d w s : Nat) (hd : d ≤ 31) (hw : w ≤ 31)
    (hs : s < 4096) :
    (snowflake_id tsOff d w s >>> 12) &&& 31 = w ∧
    (snowflake_id tsOff d w s >>> 17) &&& 31 = d := by
  rw [snowflake_id_eq tsOff d w s hd hw hs]
  have h31 : (31 : Nat) = 2 ^ 5 - 1 := by norm_num
  rw [Nat.shiftRight_eq_div_pow, Nat.shiftRight_eq_div_pow, h31,
    Nat.and_pow_two_sub_one_eq_mod, Nat.and_pow_two_sub_one_eq_mod]
  constructor <;> omega

/-- The ID an observer would read off a generator state: the assembled ID
of its `(last_timestamp, sequence)` pair.  Every ID that `generate_id`
returns is `idVal` of the post-call state. -/
def idVal (g : Snowflake) : Nat :=
  (g.lastTimestamp - EPOCH).toNat * 2 ^ 22 +
    g.datacenterId * 2 ^ 17 + g.workerId * 2 ^ 12 + g.sequence

/-- Strict lower bound on all IDs a state can still emit: `-1` for the
fresh state, otherwise the ID of the current `(timestamp, sequence)`. -/
def genLB (g : Snowflake) : Int :=
  if g.lastTimestamp = -1 then -1 else (idVal g : Int)

theorem idVal_lt_of_key_lt (g1 g2 : Snowflake)
    (h1 : EPOCH ≤ g1.lastTimestamp) (h2 : EPOCH ≤ g2.lastTimestamp)
    (hs1 : g1.sequence < 4096) (hs2 : g2.sequence < 4096)
    (hdd : g1.datacenterId = g2.datacenterId)
    (hww : g1.workerId = g2.workerId)
    (hk : g1.lastTimestamp * 4096 + (g1.sequence : Int) <
      g2.lastTimestamp * 4096 + (g2.sequence : Int)) :
    idVal g1 < idVal g2 := by
  unfold idVal EPOCH at *
  omega

/-- `(s + 1) &&& 4095` is `(s + 1) % 4096`. -/
theorem seq_mask_eq_mod (s : Nat) : (s + 1) &&& 4095 = (s + 1) % 4096 := by
  have h : (4095 : Nat) = 2 ^ 12 - 1 := by norm_num
  rw [h, Nat.and_pow_two_sub_one_eq_mod]

/-- The committed `(sequence, timestamp)` pair keeps the sequence inside
12 bits, keeps the timestamp at or after the epoch, and strictly
increases the `(timestamp, sequence)` key. -/
theorem nextPair_spec (g : Snowflake) (t tw : Int)
    (hInv : g.Inv) (ht : EPOCH ≤ t) (htw : g.lastTimestamp < tw)
    (htw2 : EPOCH ≤ tw) :
    (g.nextPair t tw).1 < 4096 ∧ EPOCH ≤ (g.nextPair t tw).2 ∧
    g.lastTimestamp * 4096 + (g.sequence : Int) <
      (g.nextPair t tw).2 * 4096 + ((g.nextPair t tw).1 : Int) := by
  obtain ⟨hseq, hlast⟩ := hInv
  unfold Snowflake.nextPair Snowflake.effTs
  simp only [seq_mask_eq_mod]
  unfold EPOCH at *
  split_ifs <;> simp_all <;> omega

/-- One-step specification of `generate_id`: the invariant is preserved,
the configuration is unchanged, the returned ID is the `idVal` of the
post state, and it exceeds the pre-state lower bound. -/
theorem generate_id_step (g : Snowflake) (t tw : Int)
    (hInv : g.Inv) (hd : g.datacenterId ≤ 31) (hw : g.workerId ≤ 31)
    (ht : EPOCH ≤ t) (htw : g.lastTimestamp < tw) (htw2 : EPOCH ≤ tw) :
    (g.generate_id t tw).2.Inv ∧
    EPOCH ≤ (g.generate_id t tw).2.lastTimestamp ∧
    (g.generate_id t tw).2.datacenterId = g.datacenterId ∧
    (g.generate_id t tw).2.workerId = g.workerId ∧
    (g.generate_id t tw).1 = idVal (g.generate_id t tw).2 ∧
    genLB g < (idVal (g.generate_id t tw).2 : Int) := by
  obtain ⟨hs', hE', hkey⟩ := nextPair_spec g t tw hInv ht htw htw2
  have hsnd : (g.generate_id t tw).2 =
      ⟨g.datacenterId, g.workerId, (g.nextPair t tw).1, (g.nextPair t tw).2⟩ := rfl
  have hfst : (g.generate_id t tw).1 =
      snowflake_id ((g.nextPair t tw).2 - EPOCH).toNat g.datacenterId
        g.workerId (g.nextPair t tw).1 := rfl
  rw [hsnd, hfst]
  refine ⟨⟨hs', Or.inr hE'⟩, hE', rfl, rfl, ?_, ?_⟩
  · rw [snowflake_id_eq _ _ _ _ hd hw hs']
    unfold idVal
    rfl
  · unfold genLB
    split_ifs with hneg
    · have h0 : (0 : Int) ≤ (idVal ⟨g.datacenterId, g.workerId, (g.nextPair t tw).1, (g.nextPair t tw).2⟩ : Int) := by positivity
      omega
    · have hle : EPOCH ≤ g.lastTimestamp := hInv.2.resolve_left hneg
      have h := idVal_lt_of_key_lt g ⟨g.datacenterId, g.workerId, (g.nextPair t tw).1, (g.nextPair t tw).2⟩ hle hE' hInv.1 hs' rfl rfl hkey
      exact_mod_cast h

/-- Run-level specification: the emitted IDs are strictly increasing, all
exceed the initial lower bound, and each has the assembled-ID shape. -/
theorem runGen_spec (inputs : List (Int × Int)) (g : Snowflake)
    (hInv : g.Inv) (hd : g.datacenterId ≤ 31) (hw : g.workerId ≤ 31)
    (hok : g.traceOk inputs = true) :
    List.Sorted (· < ·) (g.runGen inputs).1 ∧
    (∀ id ∈ (g.runGen inputs).1, genLB g < (id : Int)) ∧
    (∀ id ∈ (g.runGen inputs).1,
      ∃ m s, s < 4096 ∧ id = snowflake_id m g.datacenterId g.workerId s) := by
  induction inputs generalizing g with
  | nil => simp [Snowflake.runGen]
  | cons i rest ih =>
    obtain ⟨t, tw⟩ := i
    unfold Snowflake.traceOk at hok
    simp only [Bool.and_eq_true, decide_eq_true_eq] at hok
    obtain ⟨⟨⟨ht, htw⟩, htw2⟩, hok'⟩ := hok
    obtain ⟨hInv', hE', hdd, hww, hid, hlb⟩ :=
      generate_id_step g t tw hInv hd hw ht htw htw2
    set g' := (g.generate_id t tw).2 with hg'
    obtain ⟨hsorted, hgt, hshape⟩ := ih g' hInv' (hdd ▸ hd) (hww ▸ hw) hok'
    have hlb' : genLB g' = (idVal g' : Int) := by
      unfold genLB
      have : g'.lastTimestamp ≠ -1 := by unfold EPOCH at hE'; omega
      simp [this]
    unfold Snowflake.runGen
    simp only [List.sorted_cons, List.mem_cons]
    refine ⟨⟨?_, hsorted⟩, ?_, ?_⟩
    · intro b hb
      have := hgt b hb
      rw [hlb', hid] at *
      exact_mod_cast this
    · rintro id (rfl | hmem)
      · rw [hid]; exact hlb
      · have h1 := hgt id hmem
        rw [hlb'] at h1
        calc genLB g < (idVal g' : Int) := hlb
          _ < id := h1
    · rintro id (rfl | hmem)
      · rw [hid]
        refine ⟨(g'.lastTimestamp - EPOCH).toNat, g'.sequence, hInv'.1, ?_⟩
        rw [snowflake_id_eq _ _ _ _ (hdd ▸ hd) (hww ▸ hw) hInv'.1]
        unfold idVal
        rw [hdd, hww]
      · obtain ⟨m, s, hs, hshape'⟩ := hshape id hmem
        exact ⟨m, s, hs, by rw [hshape', hdd, hww]⟩

/-- C6: for any sequence of successive `generate_id` calls on one valid
`Snowflake` instance, all returned values are distinct and non-decreasing
in generation order, even when the clock reading moves backward between
two calls (the generator pins to the last-seen timestamp). -/
theorem generate_id_distinct_monotone (d w : Nat) (g : Snowflake)
    (inputs : List (Int × Int)) (hg : Snowflake.init d w = some g)
    (hok : g.traceOk inputs = true) :
    (g.runGen inputs).1.Nodup ∧ List.Sorted (· ≤ ·) (g.runGen inputs).1 := by
  unfold Snowflake.init at hg
  by_cases hd : d > 31
  · simp [hd] at hg
  · by_cases hw : w > 31
    · simp [hd, hw] at hg
    · simp only [hd, hw, if_neg, if_false, Option.some.injEq] at hg
      have hd' : d ≤ 31 := by omega
      have hw' : w ≤ 31 := by omega
      subst hg
      have hInv : Snowflake.Inv ⟨d, w, 0, -1⟩ :=
        ⟨show (0 : Nat) < 4096 by norm_num, Or.inl rfl⟩
      obtain ⟨hsorted, -, -⟩ := runGen_spec inputs ⟨d, w, 0, -1⟩ hInv hd' hw' hok
      exact ⟨hsorted.nodup, hsorted.le_of_lt⟩

/-- Witness for C6: a concrete three-call run whose second clock reading
moves backward; the IDs are distinct and non-decreasing. -/
theorem generate_id_distinct_monotone_witness :
    (((⟨31, 31, 0, -1⟩ : Snowflake).runGen
        [(EPOCH + 5, EPOCH + 6), (EPOCH + 3, EPOCH + 6),
          (EPOCH + 3, EPOCH + 6)]).1).Nodup ∧
    List.Sorted (· ≤ ·)
      (((⟨31, 31, 0, -1⟩ : Snowflake).runGen
        [(EPOCH + 5, EPOCH + 6), (EPOCH + 3, EPOCH + 6),
          (EPOCH + 3, EPOCH + 6)]).1) :=
  generate_id_distinct_monotone 31 31 ⟨31, 31, 0, -1⟩
    [(EPOCH + 5, EPOCH + 6), (EPOCH + 3, EPOCH + 6), (EPOCH + 3, EPOCH + 6)]
    (by decide) (by decide)

/-- C7: every ID emitted by a generator constructed with
`datacenter_id = d` and `worker_id = w` (each in `[0, 31]`) decodes back
to `w` by `(id >> 12) & 31` and to `d` by `(id >> 17) & 31`. -/
theorem generate_id_bit_layout_roundtrip (d w : Nat) (g : Snowflake)
    (inputs : List (Int × Int)) (hg : Snowflake.init d w = some g)
    (hok : g.traceOk inputs = true) :
    ∀ id ∈ (g.runGen inputs).1,
      (id >>> 12) &&& 31 = w ∧ (id >>> 17) &&& 31 = d := by
  unfold Snowflake.init at hg
  by_cases hd : d > 31
  · simp [hd] at hg
  · by_cases hw : w > 31
    · simp [hd, hw] at hg
    · simp only [hd, hw, if_neg, if_false, Option.some.injEq] at hg
      have hd' : d ≤ 31 := by omega
      have hw' : w ≤ 31 := by omega
      subst hg
      have hInv : Snowflake.Inv ⟨d, w, 0, -1⟩ :=
        ⟨show (0 : Nat) < 4096 by norm_num, Or.inl rfl⟩
      obtain ⟨-, -, hshape⟩ := runGen_spec inputs ⟨d, w, 0, -1⟩ hInv hd' hw' hok
      intro id hmem
      obtain ⟨m, s, hs, rfl⟩ := hshape id hmem
      exact snowflake_id_decode m d w s hd' hw' hs

/-- Witness for C7: the sole ID of a concrete one-call run decodes back
to worker id 31 and datacenter id 31. -/
theorem generate_id_bit_layout_roundtrip_witness :
    ((8384512 : Nat) >>> 12) &&& 31 = 31 ∧
    ((8384512 : Nat) >>> 17) &&& 31 = 31 :=
  generate_id_bit_layout_roundtrip 31 31 ⟨31, 31, 0, -1⟩ [(EPOCH + 1, EPOCH + 2)]
    (by decide) (by decide) 8384512 (by decide)

/-! ## Python exception kinds

The exception classes the embedded code raises or catches, collapsed to
the distinctions the control flow actually makes. -/

inductive PyErr
  /-- `ValueError` -/
  | valueError (msg : String)
  /-- `TimeoutError` (an `OSError`, *not* a `ValueError`) -/
  | timeoutError (msg : String)
  /-- `AttributeError` (e.g. `None.get(...)`) -/
  | attributeError
  /-- bare `Exception` -/
  | exn (msg : String)
  deriving Repr, DecidableEq

/-! ## Task status client (`alert.py`, `TaskManager.create_task`)

`create_task` POSTs the creation payload inside `for attempt in
range(2)`.  A 5xx status on attempt 0 sleeps 1 s and `continue`s; a
status in 400–599 that reaches `raise_for_status` raises
`requests.HTTPError` (`raise_for_status` raises for
`400 <= status_code < 600` only — a status ≥ 600 or < 400 falls
through to the body read), and the `except requests.RequestException`
handler returns `None` unless the status was 5xx on attempt 0 (then it
sleeps 1 s and retries).  On a response that does not raise it reads
`response.json().get('data').get('task_id')` — an `AttributeError`
escapes if the body has no `data` object — and returns the task id if
truthy, else `None`. -/

/-- Outcome of one `requests.post` call, as seen by `create_task`:
either a response (HTTP status plus the decoded body's `data` field —
`none` when the body has no usable `data` object, `some none` when
`data` is present without a `task_id`, `some (some tid)` when a
`task_id` string is present) or a transport-level
`requests.RequestException` with no attached response. -/
inductive HttpAttempt
  | resp (status : Nat) (data : Option (Option String))
  | exn
  deriving Repr, DecidableEq

/-- `TaskManager._is_server_error`. -/
def is_server_error (status : Nat) : Bool := 500 ≤ status && status < 600

/-- `requests.Response.raise_for_status` raises `requests.HTTPError`
exactly when `400 <= status_code < 600`; this predicate is that raising
condition. -/
def raise_for_status (status : Nat) : Bool := 400 ≤ status && status < 600

/-- Observable outcome of one `create_task` call: the returned value (or
escaped exception), the number of HTTP attempts made, and the number of
`time.sleep(1)` pauses taken. -/
structure CreateTaskRun where
  result : Except PyErr (Option String)
  attempts : Nat
  sleeps : Nat
  deriving Repr

/-- The body-reading tail of a `create_task` attempt (after
`raise_for_status` passed): `task_data.get('data').get('task_id')`. -/
def read_task_id (data : Option (Option String)) : Except PyErr (Option String) :=
  match data with
  | none => .error .attributeError
  | some none => .ok none
  | some (some tid) => if tid ≠ "" then .ok (some tid) else .ok none

/-- `TaskManager.create_task`, with the two iterations of
`for attempt in range(2)` unrolled; `oracle n` is the outcome of the
`n`-th `requests.post`. -/
def create_task (oracle : Nat → HttpAttempt) : CreateTaskRun :=
  match oracle 0 with
  | .exn =>
    -- except RequestException with no response: getattr(e.response, 'status_code', 0) = 0,
    -- not a server error, so return None without retrying
    ⟨.ok none, 1, 0⟩
  | .resp s data =>
    if is_server_error s then
      -- attempt 0 and 5xx: sleep(1); continue
      match oracle 1 with
      | .exn => ⟨.ok none, 2, 1⟩
      | .resp s' data' =>
        if raise_for_status s' then ⟨.ok none, 2, 1⟩     -- HTTPError → handler, attempt == 1: None
        else ⟨read_task_id data', 2, 1⟩
    else if raise_for_status s then
      -- HTTPError on attempt 0; the status is not 5xx here, so the
      -- handler returns None without retrying
      ⟨.ok none, 1, 0⟩
    else ⟨read_task_id data, 1, 0⟩

/-- C8 (amended): `create_task` makes at most 2 HTTP attempts; a 5xx on
the first attempt causes exactly one 1-second pause and one retry; a
retry response that does not raise (status outside 400–599) and carries
a `task_id` yields that id; two consecutive 5xx, a 4xx
(`raise_for_status` raises and the handler does not retry), a transport
error, and a non-raising response whose `data` object lacks a `task_id`
all yield `None`; a first response whose status is outside 400–599
(including ≥ 600) has its body read and yields the `task_id` it
carries in a single attempt.  (A non-raising response with no `data`
object at all instead escapes with an `AttributeError` — see the
counterexample.) -/
theorem create_task_retry_policy (oracle : Nat → HttpAttempt) :
    (create_task oracle).attempts ≤ 2 ∧
    (∀ s d, oracle 0 = .resp s d → is_server_error s = true →
      (create_task oracle).attempts = 2 ∧ (create_task oracle).sleeps = 1) ∧
    (∀ s d s' d' tid, oracle 0 = .resp s d → is_server_error s = true →
      oracle 1 = .resp s' d' → raise_for_status s' = false →
      d' = some (some tid) → tid ≠ "" →
      (create_task oracle).result = .ok (some tid)) ∧
    (∀ s d s' d', oracle 0 = .resp s d → is_server_error s = true →
      oracle 1 = .resp s' d' → is_server_error s' = true →
      (create_task oracle).result = .ok none) ∧
    (∀ s d, oracle 0 = .resp s d → is_server_error s = false →
      raise_for_status s = true →
      (create_task oracle).result = .ok none ∧
        (create_task oracle).attempts = 1 ∧ (create_task oracle).sleeps = 0) ∧
    (oracle 0 = .exn → (create_task oracle).result = .ok none ∧
      (create_task oracle).attempts = 1 ∧ (create_task oracle).sleeps = 0) ∧
    (∀ s, oracle 0 = .resp s (some none) → is_server_error s = false →
      raise_for_status s = false → (create_task oracle).result = .ok none) ∧
    (∀ s tid, oracle 0 = .resp s (some (some tid)) → is_server_error s = false →
      raise_for_status s = false → tid ≠ "" →
      (create_task oracle).result = .ok (some tid) ∧
        (create_task oracle).attempts = 1) := by
  refine ⟨?_, ?_, ?_, ?_, ?_, ?_, ?_, ?_⟩
  · cases ho0 : oracle 0 with
    | exn => simp [create_task, ho0]
    | resp s d =>
      simp only [create_task, ho0]
      split_ifs with h1 h2
      · cases ho1 : oracle 1 with
        | exn => simp
        | resp s' d' => simp only [ho1]; split_ifs <;> simp
      · simp
      · simp
  · intro s d h0 hs
    simp only [create_task, h0]
    rw [if_pos hs]
    cases ho1 : oracle 1 with
    | exn => simp
    | resp s' d' => simp only [ho1]; split_ifs <;> simp
  · intro s d s' d' tid h0 hs h1 hr hd htid
    simp only [create_task, h0]
    rw [if_pos hs]
    simp only [h1]
    rw [if_neg (by simp [hr]), hd]
    simp only [read_task_id]
    rw [if_pos htid]
  · intro s d s' d' h0 hs h1 hs'
    have hr : raise_for_status s' = true := by
      simp only [is_server_error, Bool.and_eq_true, decide_eq_true_eq] at hs'
      simp only [raise_for_status, Bool.and_eq_true, decide_eq_true_eq]
      omega
    simp only [create_task, h0]
    rw [if_pos hs]
    simp only [h1]
    rw [if_pos hr]
  · intro s d h0 hs hr
    simp only [create_task, h0]
    rw [if_neg (by simp [hs]), if_pos hr]
    simp
  · intro h0
    simp only [create_task, h0]
    simp
  · intro s h0 hs hr
    simp only [create_task, h0]
    rw [if_neg (by simp [hs]), if_neg (by simp [hr])]
    rfl
  · intro s tid h0 hs hr htid
    simp only [create_task, h0]
    rw [if_neg (by simp [hs]), if_neg (by simp [hr])]
    simp only [read_task_id]
    rw [if_pos htid]
    exact ⟨rfl, trivial⟩

/-- Counterexample for C8 as frozen: a successful (HTTP 200) response
whose JSON body has no `data` object lacks a `task_id` field, yet
`create_task` does not return `None` — the `AttributeError` raised by
`response_data.get('task_id')` escapes to the caller. -/
theorem create_task_no_data_counterexample :
    create_task (fun _ => .resp 200 none) =
      ⟨.error .attributeError, 1, 0⟩ ∧
    (create_task (fun _ => .resp 200 none)).result ≠ .ok none :=
  ⟨rfl, fun h => nomatch h⟩

/-- The oracle of the spec's retry scenario: HTTP 503 on the first call,
HTTP 200 with a `task_id` on the second. -/
def oracle503then200 : Nat → HttpAttempt :=
  fun n => if n = 0 then .resp 503 (some none)
    else .resp 200 (some (some "rdet:1858816913103122432"))

/-- Witness for C8: on the 503-then-200 oracle, `create_task` returns
the task id after exactly one 1-second pause and two attempts. -/
theorem create_task_retry_policy_witness :
    (create_task oracle503then200).result =
      .ok (some "rdet:1858816913103122432") ∧
    (create_task oracle503then200).attempts = 2 ∧
    (create_task oracle503then200).sleeps = 1 :=
  ⟨(create_task_retry_policy oracle503then200).2.2.1 503 (some none) 200
      (some (some "rdet:1858816913103122432")) "rdet:1858816913103122432"
      rfl rfl rfl (by decide) rfl (by decide),
    (create_task_retry_policy oracle503then200).2.1 503 (some none) rfl rfl⟩

/-! ## Queue consumer (`pubsub/baseconsumer.py`)

`BaseConsumer.validate_message` decodes the message JSON and checks, in
order: `source_url` present in `input_data`, `detect_id` present,
`timeout_at` present, `task_id` present and non-empty; then
`check_timeout` parses `timeout_at` (`YYYY-MM-DD HH:MM:SS`, UTC) and
raises `TimeoutError` if the current UTC time has passed it — but
`check_timeout`'s own `except Exception` handler re-raises that
`TimeoutError` as a bare `Exception("Error checking timeout: ...")`.
`BaseConsumer.callback` runs validation before
`db_client.create_face_swap_request` and before any
`task_manager.update_task`; its `except TimeoutError` / `except
Exception` handlers update the task tracker and the database only when
`task_id` / `request_id` are already set, and a `finally` block always
acknowledges the message. -/

/-- The `timeout_at` string as `check_timeout` sees it: either a string
`strptime` rejects (including the empty string) or one that parses to a
UTC instant, modelled in seconds. -/
inductive TimeoutField
  | invalid (raw : String)
  | parsed (utcSeconds : Int)
  deriving Repr, DecidableEq

/-- The `input_data` object of a queue message. -/
structure InputData where
  detect_id : Option String
  source_url : Option String
  target_url : Option String
  deriving Repr, DecidableEq

/-- A decoded queue message (`none` fields model absent JSON keys). -/
structure QueueMsg where
  task_id : Option String
  timeout_at : Option TimeoutField
  input_data : InputData
  deriving Repr, DecidableEq

/-- The `try` body of `BaseConsumer.check_timeout`: `ValueError` for an
empty or unparseable string, `TimeoutError` once the current UTC time
`now` has passed the deadline, `True` otherwise. -/
def check_timeout_body (field : TimeoutField) (now : Int) : Except PyErr Bool :=
  match field with
  | .invalid raw =>
    if raw = "" then .error (.valueError "timeout_at is empty")
    else .error (.valueError "unconverted data")
  | .parsed tt => if now > tt then .error (.timeoutError "Task timeout") else .ok true

/-- `BaseConsumer.check_timeout` with its two `except` clauses: a
`ValueError` is re-raised as the format `ValueError`; any other
exception — including the `TimeoutError` for an elapsed deadline, which
is *not* a `ValueError` — is re-raised as a bare
`Exception("Error checking timeout: ...")`. -/
def check_timeout (field : TimeoutField) (now : Int) : Except PyErr Bool :=
  match check_timeout_body field now with
  | .ok b => .ok b
  | .error (.valueError _) =>
    .error (.valueError "Invalid datetime format. Expected YYYY-MM-DD HH:MM:SS")
  | .error (.timeoutError m) => .error (.exn ("Error checking timeout: " ++ m))
  | .error _ => .error (.exn "Error checking timeout: ")

/-- `BaseConsumer.validate_message`: field-presence checks in source
order, then the deadline check; on success the extracted
`(detect_id, source_url, target_url, task_id)` tuple (each read with an
empty-string default). -/
def validate_message (msg : Option QueueMsg) (now : Int) :
    Except PyErr (String × String × String × String) :=
  match msg with
  | none => .error (.valueError "Invalid message format.")
  | some m =>
    if m.input_data.source_url = none then .error (.valueError "Invalid message format.")
    else if m.input_data.detect_id = none then .error (.valueError "detect_id is missing.")
    else if m.timeout_at = none then .error (.valueError "timeout_at is missing.")
    else if m.task_id = none ∨ m.task_id = some "" then .error (.valueError "task_id is missing.")
    else
      match check_timeout (m.timeout_at.getD (.invalid "")) now with
      | .error e => .error e
      | .ok _ =>
        .ok (m.input_data.detect_id.getD "", m.input_data.source_url.getD "",
          m.input_data.target_url.getD "", m.task_id.getD "")

/-- The shared status enum of the persistence layer. -/
inductive StatusEnum
  | pending | running | succeeded | failed | unknown | timeout
  deriving Repr, DecidableEq

/-- The externally observable side effects of one `callback` run:
whether `create_face_swap_request` inserted a row, the sequence of
statuses written through `update_request_status`, the sequence of
`task_status` values sent to the external tracker, and whether the
message ended up acknowledged. -/
structure CallbackTrace where
  dbCreated : Bool
  dbStatusWrites : List StatusEnum
  taskUpdates : List String
  acked : Bool
  deriving Repr, DecidableEq

/-- `BaseConsumer.callback`.  `processOutcome` is the combined outcome of
`process_task` plus the `ack_with_response().result(timeout=20)` wait:
`.ok (some url)` for a returned upload URL with a confirmed ack,
`.ok none` for a falsy URL (which raises a `ValueError`), `.error e`
for any exception out of that region.  Validation failures leave both
`task_id` and `request_id` at `None`, so the exception handlers skip
every update call; the `finally` block always acknowledges. -/
def callback (msg : Option QueueMsg) (now : Int)
    (processOutcome : Except PyErr (Option String)) : CallbackTrace :=
  match validate_message msg now with
  | .error _ => ⟨false, [], [], true⟩
  | .ok _ =>
    match processOutcome with
    | .ok (some _) => ⟨true, [.running, .succeeded], ["running", "succeeded"], true⟩
    | .ok none => ⟨true, [.running, .failed], ["running", "failed"], true⟩
    | .error (.timeoutError _) => ⟨true, [.running, .timeout], ["running", "timeout"], true⟩
    | .error _ => ⟨true, [.running, .failed], ["running", "failed"], true⟩

/-- C5: a message missing `detect_id`, missing or empty `task_id`,
missing `timeout_at`, or with an already-elapsed `timeout_at` is
rejected by `validate_message`, and `callback` creates no database row
for it; a structurally complete message with a future `timeout_at`
passes validation and yields the extracted
`(detect_id, source_url, target_url, task_id)` tuple. -/
theorem queue_message_validation :
    (∀ (m : QueueMsg) (now : Int) (po : Except PyErr (Option String)),
      (m.input_data.detect_id = none ∨ m.task_id = none ∨ m.task_id = some "" ∨
        m.timeout_at = none ∨ ∃ t, m.timeout_at = some (.parsed t) ∧ t < now) →
      (∃ e, validate_message (some m) now = .error e) ∧
        (callback (some m) now po).dbCreated = false) ∧
    (∀ (m : QueueMsg) (now t : Int),
      m.input_data.source_url ≠ none → m.input_data.detect_id ≠ none →
      m.timeout_at = some (.parsed t) → m.task_id ≠ none → m.task_id ≠ some "" →
      now < t →
      validate_message (some m) now =
        .ok (m.input_data.detect_id.getD "", m.input_data.source_url.getD "",
          m.input_data.target_url.getD "", m.task_id.getD "")) := by
  constructor
  · intro m now po hbad
    have herr : ∃ e, validate_message (some m) now = .error e := by
      simp only [validate_message]
      split_ifs with h1 h2 h3 h4
      · exact ⟨_, rfl⟩
      · exact ⟨_, rfl⟩
      · exact ⟨_, rfl⟩
      · exact ⟨_, rfl⟩
      · rcases hbad with h | h | h | h | ⟨t, ht, hlt⟩
        · exact absurd h h2
        · exact absurd (Or.inl h) h4
        · exact absurd (Or.inr h) h4
        · exact absurd h h3
        · rw [ht]
          unfold check_timeout check_timeout_body
          simp only [Option.getD_some]
          rw [if_pos (by omega)]
          exact ⟨_, rfl⟩
    obtain ⟨e, he⟩ := herr
    refine ⟨⟨e, he⟩, ?_⟩
    unfold callback
    rw [he]
  · intro m now t hsrc hdet hta htid htid' hfut
    simp only [validate_message]
    rw [if_neg hsrc, if_neg hdet, if_neg (by rw [hta]; intro h; cases h),
      if_neg (by rintro (h | h) <;> [exact htid h; exact htid' h]), hta]
    unfold check_timeout check_timeout_body
    simp only [Option.getD_some]
    rw [if_neg (by omega)]

/-- Witness for C5: a concrete message with an empty `task_id` is
rejected with no database row, and a concrete complete message with a
future deadline yields its tuple. -/
theorem queue_message_validation_witness :
    ((∃ e, validate_message
        (some ⟨some "", some (.parsed 1000), ⟨some "det-1", some "http://src", none⟩⟩)
        500 = .error e) ∧
      (callback
        (some ⟨some "", some (.parsed 1000), ⟨some "det-1", some "http://src", none⟩⟩)
        500 (.ok none)).dbCreated = false) ∧
    validate_message
        (some ⟨some "rvfs:1", some (.parsed 1000), ⟨some "det-1", some "http://src", some "http://tgt"⟩⟩)
        500 = .ok ("det-1", "http://src", "http://tgt", "rvfs:1") :=
  ⟨queue_message_validation.1 _ 500 (.ok none) (Or.inr (Or.inr (Or.inl rfl))),
    queue_message_validation.2 _ 500 1000 (by decide) (by decide) rfl
      (by decide) (by decide) (by norm_num)⟩

/-- C1 (amended): a message whose `timeout_at` has already elapsed at
validation time is rejected during validation, but the `TimeoutError`
raised inside `check_timeout` is re-wrapped by its `except Exception`
clause into a bare `Exception`, and — because validation precedes both
`create_face_swap_request` and the extraction of `task_id` — the
`except` handlers of `callback` skip every update: no database row is
created, no status (neither `timeout` nor `failed`) is written to the
database, no update reaches the external task tracker, and the message
is simply acknowledged. -/
theorem timeout_at_elapsed_validation (m : QueueMsg) (now t : Int)
    (po : Except PyErr (Option String))
    (hsrc : m.input_data.source_url ≠ none)
    (hdet : m.input_data.detect_id ≠ none)
    (hta : m.timeout_at = some (.parsed t))
    (htid : m.task_id ≠ none) (htid' : m.task_id ≠ some "")
    (hpast : t < now) :
    validate_message (some m) now =
      .error (.exn "Error checking timeout: Task timeout") ∧
    callback (some m) now po = ⟨false, [], [], true⟩ := by
  have hv : validate_message (some m) now =
      .error (.exn "Error checking timeout: Task timeout") := by
    simp only [validate_message]
    rw [if_neg hsrc, if_neg hdet, if_neg (by rw [hta]; intro h; cases h),
      if_neg (by rintro (h | h) <;> [exact htid h; exact htid' h]), hta]
    unfold check_timeout check_timeout_body
    simp only [Option.getD_some]
    rw [if_pos (by omega)]
    rfl
  refine ⟨hv, ?_⟩
  unfold callback
  rw [hv]

/-- Witness for C1's amended statement at a concrete expired message. -/
theorem timeout_at_elapsed_validation_witness :
    validate_message
        (some ⟨some "rvfs:9", some (.parsed 100), ⟨some "det-9", some "http://src", none⟩⟩)
        200 = .error (.exn "Error checking timeout: Task timeout") ∧
    callback
        (some ⟨some "rvfs:9", some (.parsed 100), ⟨some "det-9", some "http://src", none⟩⟩)
        200 (.ok none) = ⟨false, [], [], true⟩ :=
  timeout_at_elapsed_validation _ 200 100 (.ok none) (by decide)
    (by decide) rfl (by decide) (by decide) (by norm_num)

/-- Counterexample for C1 as frozen: for a concrete message whose
`timeout_at` elapsed before validation, the recorded statuses are *not*
the dedicated `timeout` status — nothing is recorded at all (no
database row, no status write, no tracker update), and the propagated
signal is a bare `Exception`, not a `TimeoutError`. -/
theorem timeout_status_not_recorded_counterexample :
    callback
        (some ⟨some "rvfs:9", some (.parsed 100), ⟨some "det-9", some "http://src", none⟩⟩)
        200 (.ok none) = ⟨false, [], [], true⟩ ∧
    StatusEnum.timeout ∉
      (callback
        (some ⟨some "rvfs:9", some (.parsed 100), ⟨some "det-9", some "http://src", none⟩⟩)
        200 (.ok none)).dbStatusWrites ∧
    "timeout" ∉
      (callback
        (some ⟨some "rvfs:9", some (.parsed 100), ⟨some "det-9", some "http://src", none⟩⟩)
        200 (.ok none)).taskUpdates ∧
    validate_message
        (some ⟨some "rvfs:9", some (.parsed 100), ⟨some "det-9", some "http://src", none⟩⟩)
        200 = .error (.exn "Error checking timeout: Task timeout") := by
  exact ⟨by decide, by decide, by decide, rfl⟩

/-! ## Media inspection (`utils/ffmpeg.py`, `get_file_info`)

Classification and validation of a downloaded file.  Probing, `PIL`
image loading and re-encoding are the external world; the file is
modelled by the metadata those tools would report, and the in-place
mutations (`img.thumbnail` + `img.save`, `scale_video`, the
alpha-flattening JPEG re-save) are reported as effect flags. -/

/-- Defaults of `config/conf.py`: `MAX_SIZE` 500 MiB, `MAX_DURATION`
600 s, `MAX_VIDEO_SIZE` 1280, `MIN_VIDEO_SIZE` 300, `MAX_IMAGE_SIZE`
4000, `MIN_IMAGE_SIZE` 300. -/
def max_file_size : ℚ := 500 * 1024 * 1024

def max_duration : ℚ := 600

def env_max_video_size : Nat := 1280

def env_min_video_size : Nat := 300

def env_max_image_size : Nat := 4000

def env_min_image_size : Nat := 300

/-- A local media file as the probes would report it: a still image
(dimensions, alpha-channel flag, byte size), a video/GIF (dimensions,
codec, container byte size and duration, audio-stream presence), a
probe result with streams but no video stream, a probe result with no
streams, or a missing path. -/
inductive MediaIn
  | image (width height : Nat) (alpha : Bool) (sizeBytes : Nat)
  | video (width height : Nat) (codec : String) (sizeBytes duration : ℚ)
      (hasAudio : Bool)
  | noVideoStream (hasAudio : Bool)
  | noStreams
  | missing
  deriving Repr, DecidableEq

/-- In-place file mutations performed by `get_file_info`. -/
structure MediaFx where
  imageDownscaled : Bool
  videoScaled : Bool
  savedAsJpeg : Bool
  deriving Repr, DecidableEq

/-- The merged metadata `get_file_info` returns on success. -/
structure FileInfoOut where
  media_type : String
  codec : String
  width : Nat
  height : Nat
  duration : Int
  file_size : Nat
  has_audio : Bool
  deriving Repr, DecidableEq

/-- Dimensions after `PIL Image.thumbnail((m, m))`: unchanged when the
image already fits, otherwise scaled down preserving aspect ratio so
the long edge is `m` (modelled with floor rounding; `PIL` rounds, which
no theorem below depends on). -/
def thumbnail_dims (w h m : Nat) : Nat × Nat :=
  if w ≤ m ∧ h ≤ m then (w, h)
  else if h ≤ w then (m, max 1 (h * m / w))
  else (max 1 (w * m / h), m)

/-- `get_file_info` (`utils/ffmpeg.py` lines 132-217).  Returns the
classification result (or the raised error) together with the in-place
mutation flags.  Division by a zero height raises Python's
`ZeroDivisionError`, modelled as a bare exception. -/
def get_file_info (f : MediaIn) : Except PyErr FileInfoOut × MediaFx :=
  match f with
  | .missing => (.error (.valueError "File does not exist"), ⟨false, false, false⟩)
  | .image w h alpha size =>
    if h = 0 then (.error (.exn "ZeroDivisionError"), ⟨false, false, false⟩)
    else if (w : ℚ) / (h : ℚ) > 21 / 9 ∨ (w : ℚ) / (h : ℚ) < 9 / 21 then
      (.error (.valueError "unsupported aspect ratio"), ⟨false, false, false⟩)
    else
      -- if img.width > env_max_image_size or img.height > env_max_image_size: img.thumbnail(...); img.save(...)
      let scaled := w > env_max_image_size ∨ h > env_max_image_size
      let dims := if w > env_max_image_size ∨ h > env_max_image_size then
        thumbnail_dims w h env_max_image_size else (w, h)
      if dims.1 < env_min_image_size ∨ dims.2 < env_min_image_size then
        (.error (.valueError "image too small"), ⟨decide scaled, false, false⟩)
      else
        (.ok ⟨"Image", "jpeg", dims.1, dims.2, 0, size / 1024, false⟩,
          ⟨decide scaled, false, alpha⟩)
  | .noStreams => (.error (.valueError "invalid video file"), ⟨false, false, false⟩)
  | .noVideoStream _ =>
    (.error (.valueError "No video stream found in the file"), ⟨false, false, false⟩)
  | .video w h codec size duration hasAudio =>
    if duration > max_duration then
      (.error (.valueError "video longer than 10 minutes"), ⟨false, false, false⟩)
    else if size > max_file_size then
      (.error (.valueError "video larger than 500MB"), ⟨false, false, false⟩)
    else if h = 0 then (.error (.exn "ZeroDivisionError"), ⟨false, false, false⟩)
    else if (w : ℚ) / (h : ℚ) > 21 / 9 ∨ (w : ℚ) / (h : ℚ) < 9 / 21 then
      (.error (.valueError "unsupported aspect ratio"), ⟨false, false, false⟩)
    else
      -- scale_video re-encodes the file in place; the returned
      -- video_stream keeps its original width/height fields
      let scaling := w > env_max_video_size ∨ h > env_max_video_size
      if w < env_min_video_size ∨ h < env_min_video_size then
        (.error (.valueError "video too small"), ⟨false, decide scaling, false⟩)
      else
        (.ok ⟨"Video", codec, w, h, ⌊duration⌋, (⌊size⌋).toNat / 1024, hasAudio⟩,
          ⟨false, decide scaling, false⟩)

/-- C9: every image or video (of positive height, so the aspect ratio
is defined) whose width:height ratio lies outside `[9/21, 21/9]` is
rejected with a raised `ValueError` — for the image the exact
aspect-ratio `ValueError`, for a video a `ValueError` that is the
aspect-ratio one whenever the earlier duration and size caps hold —
and no in-place downscaling, re-encoding or JPEG re-save is attempted
on it. -/
theorem aspect_ratio_rejection :
    (∀ (w h : Nat) (alpha : Bool) (size : Nat), 0 < h →
      ((w : ℚ) / (h : ℚ) > 21 / 9 ∨ (w : ℚ) / (h : ℚ) < 9 / 21) →
      (get_file_info (.image w h alpha size)).1 =
          .error (.valueError "unsupported aspect ratio") ∧
        (get_file_info (.image w h alpha size)).2 = ⟨false, false, false⟩) ∧
    (∀ (w h : Nat) (codec : String) (size duration : ℚ) (hasAudio : Bool),
      0 < h →
      ((w : ℚ) / (h : ℚ) > 21 / 9 ∨ (w : ℚ) / (h : ℚ) < 9 / 21) →
      (∃ m, (get_file_info (.video w h codec size duration hasAudio)).1 =
          .error (.valueError m)) ∧
        (duration ≤ max_duration → size ≤ max_file_size →
          (get_file_info (.video w h codec size duration hasAudio)).1 =
            .error (.valueError "unsupported aspect ratio")) ∧
        (get_file_info (.video w h codec size duration hasAudio)).2 =
          ⟨false, false, false⟩) := by
  constructor
  · intro w h alpha size hpos hratio
    have h0 : ¬ h = 0 := by omega
    simp only [get_file_info]
    rw [if_neg h0, if_pos hratio]
    exact ⟨rfl, rfl⟩
  · intro w h codec size duration hasAudio hpos hratio
    have h2 : ¬ h = 0 := by omega
    simp only [get_file_info]
    by_cases h0 : duration > max_duration
    · rw [if_pos h0]
      exact ⟨⟨_, rfl⟩, fun hd _ => absurd h0 (not_lt.mpr hd), rfl⟩
    · rw [if_neg h0]
      by_cases h1 : size > max_file_size
      · rw [if_pos h1]
        exact ⟨⟨_, rfl⟩, fun _ hs => absurd h1 (not_lt.mpr hs), rfl⟩
      · rw [if_neg h1, if_neg h2, if_pos hratio]
        exact ⟨⟨_, rfl⟩, fun _ _ => rfl, rfl⟩

/-- Witness for C9: a 3000×1000 (3:1) image and a 3000×1000 video
within the duration/size caps are both rejected with the aspect-ratio
`ValueError` and no scaling attempted. -/
theorem aspect_ratio_rejection_witness :
    ((0 : Nat) < 1000 ∧
      (get_file_info (.image 3000 1000 false 10000)).1 =
        .error (.valueError "unsupported aspect ratio") ∧
      (get_file_info (.image 3000 1000 false 10000)).2 =
        ⟨false, false, false⟩) ∧
    ((∃ m, (get_file_info (.video 3000 1000 "h264" 1000 10 true)).1 =
        .error (.valueError m)) ∧
      ((10 : ℚ) ≤ max_duration → (1000 : ℚ) ≤ max_file_size →
        (get_file_info (.video 3000 1000 "h264" 1000 10 true)).1 =
          .error (.valueError "unsupported aspect ratio")) ∧
      (get_file_info (.video 3000 1000 "h264" 1000 10 true)).2 =
        ⟨false, false, false⟩) :=
  ⟨⟨by decide,
      aspect_ratio_rejection.1 3000 1000 false 10000 (by decide)
        (Or.inl (by norm_num))⟩,
    aspect_ratio_rejection.2 3000 1000 "h264" 1000 10 true (by decide)
      (Or.inl (by norm_num))⟩

/-! ## Storage manager (`storage/manager.py`)

`StorageManager.register_provider` stores the provider under its name
and makes it the default when `is_default` is set *or no default exists
yet*; `get_provider` resolves `name or self.default_provider` against
the registry and raises `ValueError` when unknown.  `initialize()`
clears the registry and re-registers at most one provider. -/

/-- Registry state of a `StorageManager`: the registered provider names
(dict keys, insertion order) and the current default name. -/
structure StorageManager where
  providers : List String
  default_provider : Option String
  deriving Repr, DecidableEq

/-- `StorageManager.__init__`: empty registry, no default. -/
def StorageManager.empty : StorageManager := ⟨[], none⟩

/-- `StorageManager.register_provider(name, provider, is_default)`. -/
def StorageManager.register_provider (m : StorageManager) (name : String)
    (is_default : Bool) : StorageManager :=
  { providers := if name ∈ m.providers then m.providers else m.providers ++ [name],
    default_provider :=
      if is_default || m.default_provider.isNone then some name
      else m.default_provider }

/-- `StorageManager.get_provider(name=None)`: `name or default_provider`
(so the empty string also falls back to the default), then a registry
lookup that raises `ValueError` for an unknown or absent name. -/
def StorageManager.get_provider (m : StorageManager) (name : Option String) :
    Except PyErr String :=
  let pn : Option String :=
    match name with
    | some n => if n = "" then m.default_provider else some n
    | none => m.default_provider
  match pn with
  | some p => if p ∈ m.providers then .ok p else .error (.valueError "not found")
  | none => .error (.valueError "not found")

/-- States reachable through `__init__`, any sequence of
`register_provider` calls, and the registry reset at the top of
`initialize()`. -/
inductive StorageManager.Reachable : StorageManager → Prop
  | empty : StorageManager.Reachable .empty
  | register (m : StorageManager) (name : String) (is_default : Bool) :
      StorageManager.Reachable m →
      StorageManager.Reachable (m.register_provider name is_default)
  | reset (m : StorageManager) : StorageManager.Reachable m →
      StorageManager.Reachable .empty

/-- Default-pointer invariant of reachable registries: the default
names a registered provider, and it is absent only on the empty
registry. -/
theorem storage_reachable_inv (m : StorageManager)
    (hm : StorageManager.Reachable m) :
    (∀ d, m.default_provider = some d → d ∈ m.providers) ∧
    (m.default_provider = none → m.providers = []) := by
  induction hm with
  | empty => exact ⟨fun d h => (nomatch h), fun _ => rfl⟩
  | reset m _ _ => exact ⟨fun d h => (nomatch h), fun _ => rfl⟩
  | register m name is_default _ ih =>
    unfold StorageManager.register_provider
    constructor
    · intro d hd
      simp only at hd
      by_cases hdef : (is_default || m.default_provider.isNone) = true
      · rw [if_pos hdef] at hd
        cases hd
        by_cases hmem : name ∈ m.providers
        · simp [hmem]
        · simp [hmem]
      · rw [if_neg hdef] at hd
        have := ih.1 d hd
        by_cases hmem : name ∈ m.providers
        · simpa [hmem] using this
        · simp only [hmem, if_neg, not_false_iff]
          exact List.mem_append_left _ this
    · intro hd
      simp only at hd
      by_cases hdef : (is_default || m.default_provider.isNone) = true
      · rw [if_pos hdef] at hd
        cases hd
      · rw [if_neg hdef] at hd
        simp only [Bool.or_eq_true, Option.isNone_iff_eq_none] at hdef
        push_neg at hdef
        exact absurd hd hdef.2

/-- C10: the first provider ever registered becomes the default even
with `is_default = False`; a later registration changes the default
only when `is_default = True`; and on every reachable registry with at
least one provider the default names a registered provider and
`get_provider(None)` succeeds. -/
theorem storage_default_provider :
    (∀ (name : String) (is_default : Bool),
      (StorageManager.empty.register_provider name is_default).default_provider =
        some name) ∧
    (∀ (m : StorageManager) (p name : String),
      m.default_provider = some p →
      (m.register_provider name false).default_provider = some p ∧
      (m.register_provider name true).default_provider = some name) ∧
    (∀ m : StorageManager, StorageManager.Reachable m → m.providers ≠ [] →
      ∃ d, m.default_provider = some d ∧ d ∈ m.providers ∧
        m.get_provider none = .ok d) := by
  refine ⟨?_, ?_, ?_⟩
  · intro name is_default
    unfold StorageManager.register_provider
    simp [StorageManager.empty]
  · intro m p name hp
    unfold StorageManager.register_provider
    constructor
    · simp [hp]
    · simp
  · intro m hm hne
    obtain ⟨hdef, hnone⟩ := storage_reachable_inv m hm
    cases hd : m.default_provider with
    | none => exact absurd (hnone hd) hne
    | some d =>
      refine ⟨d, rfl, hdef d hd, ?_⟩
      unfold StorageManager.get_provider
      simp only [hd]
      rw [if_pos (hdef d hd)]

/-- Witness for C10: registering a first provider with
`is_default = False` makes it the default; a second registration with
`is_default = False` leaves it; with `is_default = True` replaces it;
and `get_provider(None)` succeeds on the resulting registry. -/
theorem storage_default_provider_witness :
    (StorageManager.empty.register_provider "gcs" false).default_provider =
      some "gcs" ∧
    ((StorageManager.empty.register_provider "gcs" false).register_provider
      "r2" false).default_provider = some "gcs" ∧
    ((StorageManager.empty.register_provider "gcs" false).register_provider
      "r2" true).default_provider = some "r2" ∧
    ∃ d, ((StorageManager.empty.register_provider "gcs" false).register_provider
        "r2" false).default_provider = some d ∧
      d ∈ ((StorageManager.empty.register_provider "gcs" false).register_provider
        "r2" false).providers ∧
      ((StorageManager.empty.register_provider "gcs" false).register_provider
        "r2" false).get_provider none = .ok d :=
  ⟨storage_default_provider.1 "gcs" false,
    ((storage_default_provider.2.1 _ "gcs" "r2")
      (storage_default_provider.1 "gcs" false)).1,
    ((storage_default_provider.2.1 _ "gcs" "r2")
      (storage_default_provider.1 "gcs" false)).2,
    storage_default_provider.2.2 _
      (StorageManager.Reachable.register _ "r2" false
        (StorageManager.Reachable.register _ "gcs" false
          StorageManager.Reachable.empty)) (by decide)⟩

/-! ## Multi-reference face mapping
(`facefusion/processors/modules/face_swapper.py`, `process_frame`,
`face_selector_mode == 'reference'` branch)

A detected face is represented by its normalized recognizer embedding;
`swap_face`'s image transform is abstracted to the *event* of its
invocation (which mapping swapped which detected-face index), since the
claims are about which swaps happen, not pixel values.  Each
`face_mappings` entry carries the source and reference faces as loaded
by `process_frames`' preloading or the in-branch path/URL loading —
`none` models a load that found no face (the branch then logs a warning
and skips the mapping). -/

/-- A detected face: its `normed_embedding`. -/
structure Face where
  normedEmbedding : List ℚ
  deriving Repr, DecidableEq

/-- `numpy.dot` on two 1-D vectors. -/
def dotProd : List ℚ → List ℚ → ℚ
  | a :: as, b :: bs => a * b + dotProd as bs
  | _, _ => 0

/-- `1 - numpy.dot(target_face.normed_embedding, reference_face.normed_embedding)`. -/
def similarity (target ref : Face) : ℚ :=
  1 - dotProd target.normedEmbedding ref.normedEmbedding

/-- One `face_mappings` entry after face loading: the loaded source and
reference faces (absent on load failure) and the optional per-mapping
`similarity_threshold` (defaulting to the global
`reference_face_distance`). -/
structure FaceMapping where
  source_face : Option Face
  reference_face : Option Face
  similarity_threshold : Option ℚ
  deriving Repr, DecidableEq

/-- One recorded `swap_face` invocation: by a mapping (mapping index,
detected-face index) or by the legacy single-reference branch
(detected-face index). -/
inductive SwapEvent
  | mapped (mappingIdx faceIdx : Nat)
  | legacy (faceIdx : Nat)
  deriving Repr, DecidableEq

/-- `e` concerns detected-face index `k`. -/
def atFace (k : Nat) : SwapEvent → Bool
  | .mapped _ i => i = k
  | .legacy i => i = k

/-- The inner loop of one mapping:
`for idx, target_face in enumerate(many_faces)`, skipping
already-claimed indices, swapping on `similarity < threshold` and
claiming the index.  `idx` is the running enumeration index. -/
def mapFaces (mIdx : Nat) (ref : Face) (thr : ℚ) :
    Nat → List Face → List Nat → List SwapEvent × List Nat
  | _, [], processed => ([], processed)
  | idx, f :: rest, processed =>
    if idx ∈ processed then mapFaces mIdx ref thr (idx + 1) rest processed
    else if similarity f ref < thr then
      let r := mapFaces mIdx ref thr (idx + 1) rest (idx :: processed)
      (.mapped mIdx idx :: r.1, r.2)
    else mapFaces mIdx ref thr (idx + 1) rest processed

/-- The outer loop over `face_mappings`: a mapping whose source or
reference face failed to load is skipped with a warning; otherwise its
inner loop runs over all detected faces with the shared
`processed_indices` set. -/
def runMappings (many : List Face) (ref_distance : ℚ) :
    Nat → List FaceMapping → List Nat → List SwapEvent × List Nat
  | _, [], processed => ([], processed)
  | mIdx, mp :: rest, processed =>
    match mp.source_face, mp.reference_face with
    | some _, some ref =>
      let thr := mp.similarity_threshold.getD ref_distance
      let r1 := mapFaces mIdx ref thr 0 many processed
      let r2 := runMappings many ref_distance (mIdx + 1) rest r1.2
      (r1.1 ++ r2.1, r2.2)
    | _, _ => runMappings many ref_distance (mIdx + 1) rest processed

/-- Modelled from the spec: the vendored `face_selector.find_similar_faces`
called by the legacy single-reference branch is not part of this
repository's sources.  Per the spec it selects every detected face whose
cosine-distance-style similarity (`1 − dot(normalized embeddings)`) to a
stored reference face is below the global reference-face-distance
setting; this returns the indices of the selected faces. -/
def find_similar_faces (faces : List Face) (refs : List Face) (distance : ℚ) :
    List Nat :=
  (List.range faces.length).filter fun k =>
    match faces.get? k with
    | some f => refs.any fun r => decide (similarity f r < distance)
    | none => false

/-- The `face_selector_mode == 'reference'` branch of `process_frame`:
with a non-empty `face_mappings` list the multi-reference loop runs;
otherwise (`None` or empty) the legacy single-reference behaviour calls
`swap_face` on each face `find_similar_faces` selects. -/
def process_frame_reference (many : List Face)
    (face_mappings : Option (List FaceMapping)) (reference_faces : List Face)
    (ref_distance : ℚ) : List SwapEvent :=
  match face_mappings with
  | some (mp :: rest) => (runMappings many ref_distance 0 (mp :: rest) []).1
  | _ => (find_similar_faces many reference_faces ref_distance).map .legacy

/-- A mapping matches a detected face: both its faces loaded and the
similarity against its reference face is below its threshold. -/
def matchesB (mp : FaceMapping) (f : Face) (dist : ℚ) : Bool :=
  mp.source_face.isSome &&
    match mp.reference_face with
    | some ref => decide (similarity f ref < mp.similarity_threshold.getD dist)
    | none => false

/-- The inner loop would swap detected-face index `k`: `k` lies in the
enumerated range starting at `i0`, is unclaimed, and its face is
similar to the mapping's reference face. -/
def hitB (ref : Face) (thr : ℚ) (i0 : Nat) (fs : List Face) (p : List Nat)
    (k : Nat) : Bool :=
  i0 ≤ k &&
    match fs.get? (k - i0) with
    | some f => !(decide (k ∈ p)) && decide (similarity f ref < thr)
    | none => false

theorem hitB_cons (ref : Face) (thr : ℚ) (f : Face) (rest : List Face)
    (i0 : Nat) (p : List Nat) (k : Nat) :
    hitB ref thr i0 (f :: rest) p k =
      if k = i0 then !(decide (k ∈ p)) && decide (similarity f ref < thr)
      else hitB ref thr (i0 + 1) rest p k := by
  unfold hitB
  rcases Nat.lt_trichotomy k i0 with h | h | h
  · have h1 : ¬ i0 ≤ k := by omega
    have h2 : ¬ i0 + 1 ≤ k := by omega
    have h3 : k ≠ i0 := by omega
    simp [h1, h2, h3]
  · subst h
    simp
  · have h1 : i0 ≤ k := by omega
    have h2 : i0 + 1 ≤ k := by omega
    have h3 : k ≠ i0 := by omega
    have h4 : k - i0 = (k - (i0 + 1)) + 1 := by omega
    simp [h1, h2, h3, h4]

theorem hitB_claimed (ref : Face) (thr : ℚ) (rest : List Face) (i0 : Nat)
    (p : List Nat) (k : Nat) (h : k ≠ i0) :
    hitB ref thr (i0 + 1) rest (i0 :: p) k = hitB ref thr (i0 + 1) rest p k := by
  unfold hitB
  cases hg : rest.get? (k - (i0 + 1)) with
  | none => rfl
  | some f =>
    have hdec : decide (k ∈ i0 :: p) = decide (k ∈ p) :=
      decide_eq_decide.mpr (by simp [List.mem_cons, h])
    rw [hdec]

/-- Per-mapping specification of the inner loop: the events it emits at
detected-face index `k` form the singleton `[mapped mIdx k]` exactly
when `hitB` holds (else none), and `k` is claimed afterwards iff it was
claimed before or the loop just claimed it. -/
theorem mapFaces_spec (mIdx : Nat) (ref : Face) (thr : ℚ) (fs : List Face) :
    ∀ (i0 : Nat) (p : List Nat) (k : Nat),
    ((mapFaces mIdx ref thr i0 fs p).1.filter (atFace k) =
      if hitB ref thr i0 fs p k then [SwapEvent.mapped mIdx k] else []) ∧
    (k ∈ (mapFaces mIdx ref thr i0 fs p).2 ↔ k ∈ p ∨ hitB ref thr i0 fs p k) := by
  induction fs with
  | nil =>
    intro i0 p k
    constructor
    · simp [mapFaces, hitB]
    · simp [mapFaces, hitB]
  | cons f rest ih =>
    intro i0 p k
    rw [hitB_cons]
    simp only [mapFaces]
    by_cases hp : i0 ∈ p
    · rw [if_pos hp]
      refine ⟨?_, ?_⟩
      · rw [(ih (i0 + 1) p k).1]
        by_cases hk : k = i0
        · subst hk
          have hfalse : hitB ref thr (k + 1) rest p k = false := by
            unfold hitB
            simp [Nat.not_succ_le_self]
          simp [hp, hfalse]
        · rw [if_neg hk]
      · rw [(ih (i0 + 1) p k).2]
        by_cases hk : k = i0
        · subst hk
          simp [hp]
        · rw [if_neg hk]
    · rw [if_neg hp]
      by_cases hs : similarity f ref < thr
      · rw [if_pos hs]
        refine ⟨?_, ?_⟩
        · rw [List.filter_cons]
          by_cases hk : k = i0
          · subst hk
            have ha : atFace k (SwapEvent.mapped mIdx k) = true := by
              simp [atFace]
            rw [if_pos ha, (ih (k + 1) (k :: p) k).1]
            have hfalse : hitB ref thr (k + 1) rest (k :: p) k = false := by
              unfold hitB
              simp [Nat.not_succ_le_self]
            simp [hfalse, hp, hs]
          · have ha : atFace k (SwapEvent.mapped mIdx i0) = false := by
              simp [atFace]
              omega
            rw [if_neg (by simp [ha]), (ih (i0 + 1) (i0 :: p) k).1,
              hitB_claimed ref thr rest i0 p k hk, if_neg hk]
        · rw [(ih (i0 + 1) (i0 :: p) k).2]
          by_cases hk : k = i0
          · subst hk
            have hfalse : hitB ref thr (k + 1) rest (k :: p) k = false := by
              unfold hitB
              simp [Nat.not_succ_le_self]
            simp [hfalse, hp, hs, List.mem_cons]
          · rw [hitB_claimed ref thr rest i0 p k hk, if_neg hk]
            simp [List.mem_cons, hk]
      · rw [if_neg hs]
        refine ⟨?_, ?_⟩
        · rw [(ih (i0 + 1) p k).1]
          by_cases hk : k = i0
          · subst hk
            have hfalse : hitB ref thr (k + 1) rest p k = false := by
              unfold hitB
              simp [Nat.not_succ_le_self]
            simp [hfalse, hs]
          · rw [if_neg hk]
        · rw [(ih (i0 + 1) p k).2]
          by_cases hk : k = i0
          · subst hk
            have hfalse : hitB ref thr (k + 1) rest p k = false := by
              unfold hitB
              simp [Nat.not_succ_le_self]
            simp [hfalse, hs]
          · rw [if_neg hk]

/-- Every event the inner loop emits is a `mapped` event of its own
mapping index. -/
theorem mapFaces_events_shape (mIdx : Nat) (ref : Face) (thr : ℚ)
    (fs : List Face) :
    ∀ (i0 : Nat) (p : List Nat) (e : SwapEvent),
      e ∈ (mapFaces mIdx ref thr i0 fs p).1 → ∃ i, e = .mapped mIdx i := by
  induction fs with
  | nil =>
    intro i0 p e he
    simp [mapFaces] at he
  | cons f rest ih =>
    intro i0 p e he
    simp only [mapFaces] at he
    by_cases hp : i0 ∈ p
    · rw [if_pos hp] at he
      exact ih (i0 + 1) p e he
    · rw [if_neg hp] at he
      by_cases hs : similarity f ref < thr
      · rw [if_pos hs] at he
        rcases List.mem_cons.mp he with rfl | hmem
        · exact ⟨i0, rfl⟩
        · exact ih (i0 + 1) (i0 :: p) e hmem
      · rw [if_neg hs] at he
        exact ih (i0 + 1) p e he

/-- If no face in the list is similar to the reference, the inner loop
emits nothing and claims nothing. -/
theorem mapFaces_no_match (mIdx : Nat) (ref : Face) (thr : ℚ) (fs : List Face)
    (h : ∀ f ∈ fs, ¬ similarity f ref < thr) :
    ∀ (i0 : Nat) (p : List Nat), mapFaces mIdx ref thr i0 fs p = ([], p) := by
  induction fs with
  | nil => intro i0 p; rfl
  | cons f rest ih =>
    intro i0 p
    have hf : ¬ similarity f ref < thr := h f (List.mem_cons_self f rest)
    have hrest : ∀ g ∈ rest, ¬ similarity g ref < thr :=
      fun g hg => h g (List.mem_cons_of_mem f hg)
    simp only [mapFaces]
    by_cases hp : i0 ∈ p
    · rw [if_pos hp, ih hrest (i0 + 1) p]
    · rw [if_neg hp, if_neg hf, ih hrest (i0 + 1) p]

/-- Index of the first mapping that matches face `f`, in mapping order. -/
def firstMatch (f : Face) (dist : ℚ) : List FaceMapping → Option Nat
  | [] => none
  | mp :: rest =>
    if matchesB mp f dist then some 0 else (firstMatch f dist rest).map (· + 1)

theorem firstMatch_cons (f : Face) (dist : ℚ) (mp : FaceMapping)
    (rest : List FaceMapping) :
    firstMatch f dist (mp :: rest) =
      if matchesB mp f dist then some 0
      else (firstMatch f dist rest).map (· + 1) := rfl

theorem hitB_zero (ref : Face) (thr : ℚ) (many : List Face) (p : List Nat)
    (k : Nat) (hk : k < many.length) :
    hitB ref thr 0 many p k =
      (!(decide (k ∈ p)) && decide (similarity (many.get ⟨k, hk⟩) ref < thr)) := by
  unfold hitB
  rw [Nat.sub_zero, List.get?_eq_get hk]
  simp

/-- Specification of the mapping loop: the events at face `k` form the
singleton of the first matching mapping (when `k` is unclaimed), and
`k` ends claimed iff it started claimed or some mapping matches it. -/
theorem runMappings_spec (many : List Face) (dist : ℚ) (ms : List FaceMapping) :
    ∀ (mIdx : Nat) (p : List Nat) (k : Nat) (hk : k < many.length),
    ((runMappings many dist mIdx ms p).1.filter (atFace k) =
      if k ∈ p then []
      else
        match firstMatch (many.get ⟨k, hk⟩) dist ms with
        | some j => [SwapEvent.mapped (mIdx + j) k]
        | none => []) ∧
    (k ∈ (runMappings many dist mIdx ms p).2 ↔
      k ∈ p ∨ (firstMatch (many.get ⟨k, hk⟩) dist ms).isSome) := by
  induction ms with
  | nil =>
    intro mIdx p k hk
    constructor
    · simp only [runMappings, firstMatch, List.filter_nil]
      split_ifs <;> rfl
    · simp [runMappings, firstMatch]
  | cons mp rest ih =>
    intro mIdx p k hk
    cases hsrc : mp.source_face with
    | none =>
      have hm : matchesB mp (many.get ⟨k, hk⟩) dist = false := by
        simp [matchesB, hsrc]
      have hred : runMappings many dist mIdx (mp :: rest) p =
          runMappings many dist (mIdx + 1) rest p := by
        simp only [runMappings, hsrc]
      rw [hred]
      have hfm : firstMatch (many.get ⟨k, hk⟩) dist (mp :: rest) =
          (firstMatch (many.get ⟨k, hk⟩) dist rest).map (· + 1) := by
        rw [firstMatch_cons, if_neg (by rw [hm]; simp)]
      obtain ⟨ih1, ih2⟩ := ih (mIdx + 1) p k hk
      refine ⟨?_, ?_⟩
      · rw [ih1, hfm]
        cases ho : firstMatch (many.get ⟨k, hk⟩) dist rest with
        | none => simp
        | some j =>
          simp only [Option.map_some']
          have : mIdx + 1 + j = mIdx + (j + 1) := by omega
          rw [this]
      · rw [ih2, hfm]
        cases ho : firstMatch (many.get ⟨k, hk⟩) dist rest <;> simp
    | some src =>
      cases href : mp.reference_face with
      | none =>
        have hm : matchesB mp (many.get ⟨k, hk⟩) dist = false := by
          simp [matchesB, href]
        have hred : runMappings many dist mIdx (mp :: rest) p =
            runMappings many dist (mIdx + 1) rest p := by
          simp only [runMappings, hsrc, href]
        rw [hred]
        have hfm : firstMatch (many.get ⟨k, hk⟩) dist (mp :: rest) =
            (firstMatch (many.get ⟨k, hk⟩) dist rest).map (· + 1) := by
          rw [firstMatch_cons, if_neg (by rw [hm]; simp)]
        obtain ⟨ih1, ih2⟩ := ih (mIdx + 1) p k hk
        refine ⟨?_, ?_⟩
        · rw [ih1, hfm]
          cases ho : firstMatch (many.get ⟨k, hk⟩) dist rest with
          | none => simp
          | some j =>
            simp only [Option.map_some']
            have : mIdx + 1 + j = mIdx + (j + 1) := by omega
            rw [this]
        · rw [ih2, hfm]
          cases ho : firstMatch (many.get ⟨k, hk⟩) dist rest <;> simp
      | some ref =>
        have hred : runMappings many dist mIdx (mp :: rest) p =
            ((mapFaces mIdx ref (mp.similarity_threshold.getD dist) 0 many p).1 ++
              (runMappings many dist (mIdx + 1) rest
                (mapFaces mIdx ref (mp.similarity_threshold.getD dist) 0 many p).2).1,
              (runMappings many dist (mIdx + 1) rest
                (mapFaces mIdx ref (mp.similarity_threshold.getD dist) 0 many p).2).2) := by
          simp only [runMappings, hsrc, href]
        have hmB : matchesB mp (many.get ⟨k, hk⟩) dist =
            decide (similarity (many.get ⟨k, hk⟩) ref <
              mp.similarity_threshold.getD dist) := by
          simp [matchesB, hsrc, href]
        set thr := mp.similarity_threshold.getD dist with hthr
        set r1 := mapFaces mIdx ref thr 0 many p with hr1
        obtain ⟨m1, m2⟩ := mapFaces_spec mIdx ref thr many 0 p k
        obtain ⟨ih1, ih2⟩ := ih (mIdx + 1) r1.2 k hk
        rw [hred]
        by_cases hp : k ∈ p
        · have hhit : hitB ref thr 0 many p k = false := by
            rw [hitB_zero ref thr many p k hk]
            simp [hp]
          have hk2 : k ∈ r1.2 := m2.mpr (Or.inl hp)
          refine ⟨?_, ?_⟩
          · rw [List.filter_append, m1, hhit, ih1, if_pos hk2, if_pos hp]
            rfl
          · rw [ih2]
            simp [hk2, hp]
        · by_cases hsim : similarity (many.get ⟨k, hk⟩) ref < thr
          · have hhit : hitB ref thr 0 many p k = true := by
              rw [hitB_zero ref thr many p k hk]
              simp [hp]
              exact hsim
            have hk2 : k ∈ r1.2 := m2.mpr (Or.inr hhit)
            have hfm : firstMatch (many.get ⟨k, hk⟩) dist (mp :: rest) = some 0 := by
              rw [firstMatch_cons, if_pos (by rw [hmB]; exact decide_eq_true hsim)]
            refine ⟨?_, ?_⟩
            · rw [List.filter_append, m1, hhit, ih1, if_pos hk2, if_neg hp, hfm]
              simp
            · rw [ih2]
              have hiso : (firstMatch (many.get ⟨k, hk⟩) dist
                  (mp :: rest)).isSome = true := by
                rw [hfm]
                rfl
              exact ⟨fun _ => Or.inr hiso, fun _ => Or.inl hk2⟩
          · have hhit : hitB ref thr 0 many p k = false := by
              rw [hitB_zero ref thr many p k hk, decide_eq_false hsim]
              simp
            have hk2 : ¬ k ∈ r1.2 := by
              rw [m2]
              simp [hp, hhit]
            have hfm : firstMatch (many.get ⟨k, hk⟩) dist (mp :: rest) =
                (firstMatch (many.get ⟨k, hk⟩) dist rest).map (· + 1) := by
              rw [firstMatch_cons, if_neg (by rw [hmB, decide_eq_false hsim]; simp)]
            refine ⟨?_, ?_⟩
            · rw [List.filter_append, m1, hhit, ih1, if_neg hk2, if_neg hp, hfm]
              cases ho : firstMatch (many.get ⟨k, hk⟩) dist rest with
              | none => simp
              | some j =>
                simp only [Option.map_some', List.nil_append]
                have : mIdx + 1 + j = mIdx + (j + 1) := by omega
                rw [this]
                simp
            · rw [ih2, hfm]
              cases ho : firstMatch (many.get ⟨k, hk⟩) dist rest <;>
                simp [hk2, hp]

/-- Every event of the mapping loop is a `mapped` event. -/
theorem runMappings_events_shape (many : List Face) (dist : ℚ)
    (ms : List FaceMapping) :
    ∀ (mIdx : Nat) (p : List Nat) (e : SwapEvent),
      e ∈ (runMappings many dist mIdx ms p).1 → ∃ a b, e = .mapped a b := by
  induction ms with
  | nil =>
    intro mIdx p e he
    simp [runMappings] at he
  | cons mp rest ih =>
    intro mIdx p e he
    cases hsrc : mp.source_face with
    | none =>
      rw [show runMappings many dist mIdx (mp :: rest) p =
          runMappings many dist (mIdx + 1) rest p by
        simp only [runMappings, hsrc]] at he
      exact ih (mIdx + 1) p e he
    | some src =>
      cases href : mp.reference_face with
      | none =>
        rw [show runMappings many dist mIdx (mp :: rest) p =
            runMappings many dist (mIdx + 1) rest p by
          simp only [runMappings, hsrc, href]] at he
        exact ih (mIdx + 1) p e he
      | some ref =>
        rw [show (runMappings many dist mIdx (mp :: rest) p).1 =
            (mapFaces mIdx ref (mp.similarity_threshold.getD dist) 0 many p).1 ++
              (runMappings many dist (mIdx + 1) rest
                (mapFaces mIdx ref (mp.similarity_threshold.getD dist) 0 many p).2).1 by
          simp only [runMappings, hsrc, href]] at he
        rcases List.mem_append.mp he with h1 | h2
        · obtain ⟨i, rfl⟩ := mapFaces_events_shape mIdx ref _ many 0 p e h1
          exact ⟨mIdx, i, rfl⟩
        · exact ih (mIdx + 1) _ e h2

/-- When no mapping matches any detected face, the mapping loop emits
nothing and claims nothing. -/
theorem runMappings_no_match (many : List Face) (dist : ℚ)
    (ms : List FaceMapping)
    (h : ∀ mp ∈ ms, ∀ f ∈ many, matchesB mp f dist = false) :
    ∀ (mIdx : Nat) (p : List Nat), runMappings many dist mIdx ms p = ([], p) := by
  induction ms with
  | nil => intro mIdx p; rfl
  | cons mp rest ih =>
    intro mIdx p
    have hrest : ∀ mp' ∈ rest, ∀ f ∈ many, matchesB mp' f dist = false :=
      fun mp' h' => h mp' (List.mem_cons_of_mem mp h')
    cases hsrc : mp.source_face with
    | none =>
      simp only [runMappings, hsrc]
      exact ih hrest (mIdx + 1) p
    | some src =>
      cases href : mp.reference_face with
      | none =>
        simp only [runMappings, hsrc, href]
        exact ih hrest (mIdx + 1) p
      | some ref =>
        have hnosim : ∀ f ∈ many,
            ¬ similarity f ref < mp.similarity_threshold.getD dist := by
          intro f hf
          have := h mp (List.mem_cons_self mp rest) f hf
          simp [matchesB, hsrc, href] at this
          exact not_lt.mpr this
        have hmf : mapFaces mIdx ref (mp.similarity_threshold.getD dist)
            0 many p = ([], p) := mapFaces_no_match mIdx ref _ many hnosim 0 p
        simp only [runMappings, hsrc, href, hmf]
        rw [ih hrest (mIdx + 1) p]
        rfl

/-- Minimality of `firstMatch`: if the `i`-th mapping matches `f`, the
first match exists at an index `≤ i`, that mapping matches, and no
earlier one does. -/
theorem firstMatch_min (f : Face) (dist : ℚ) (ms : List FaceMapping)
    (i : Nat) (mi : FaceMapping) (hi : ms.get? i = some mi)
    (hmi : matchesB mi f dist = true) :
    ∃ j0, firstMatch f dist ms = some j0 ∧ j0 ≤ i ∧
      (∃ m0, ms.get? j0 = some m0 ∧ matchesB m0 f dist = true) ∧
      (∀ l m', l < j0 → ms.get? l = some m' → matchesB m' f dist = false) := by
  induction ms generalizing i with
  | nil => simp at hi
  | cons mp rest ih =>
    by_cases hm : matchesB mp f dist = true
    · exact ⟨0, by rw [firstMatch_cons, if_pos hm], Nat.zero_le i, ⟨mp, rfl, hm⟩,
        fun l m' hl _ => absurd hl (Nat.not_lt_zero l)⟩
    · cases i with
      | zero =>
        simp only [List.get?] at hi
        cases hi
        exact absurd hmi hm
      | succ i' =>
        have hi' : rest.get? i' = some mi := hi
        obtain ⟨j0, hfm, hle, ⟨m0, hg0, hm0⟩, hmin⟩ := ih i' hi'
        refine ⟨j0 + 1, ?_, by omega, ⟨m0, hg0, hm0⟩, ?_⟩
        · rw [firstMatch_cons, if_neg hm, hfm]
          rfl
        · intro l m' hl hg
          cases l with
          | zero =>
            simp only [List.get?] at hg
            cases hg
            exact Bool.eq_false_iff.mpr hm
          | succ l' => exact hmin l' m' (by omega) hg

/-- C4: in multi-reference mapping mode, for any two mappings (indices
`i < j`) whose reference faces both match the same detected face `k`
under their respective thresholds, exactly one mapping claims and swaps
that face — the earliest matching one, whose index is `≤ i` — and the
later mapping `j` does not re-swap it within the same frame. -/
theorem multi_mapping_claim_exclusivity (many : List Face)
    (ms : List FaceMapping) (refs : List Face) (dist : ℚ) (i j k : Nat)
    (mi mj : FaceMapping) (hij : i < j) (hk : k < many.length)
    (hmi : ms.get? i = some mi) (hmj : ms.get? j = some mj)
    (hmatchi : matchesB mi (many.get ⟨k, hk⟩) dist = true)
    (hmatchj : matchesB mj (many.get ⟨k, hk⟩) dist = true) :
    ∃ j0, j0 ≤ i ∧
      (process_frame_reference many (some ms) refs dist).filter (atFace k) =
        [SwapEvent.mapped j0 k] ∧
      (∀ j', SwapEvent.mapped j' k ∈
        process_frame_reference many (some ms) refs dist → j' = j0) ∧
      SwapEvent.mapped j k ∉ process_frame_reference many (some ms) refs dist ∧
      (∃ m0, ms.get? j0 = some m0 ∧
        matchesB m0 (many.get ⟨k, hk⟩) dist = true) ∧
      (∀ l m', l < j0 → ms.get? l = some m' →
        matchesB m' (many.get ⟨k, hk⟩) dist = false) := by
  obtain ⟨j0, hfm, hle, hex, hmin⟩ :=
    firstMatch_min (many.get ⟨k, hk⟩) dist ms i mi hmi hmatchi
  cases ms with
  | nil => simp at hmi
  | cons mp rest =>
    have hpf : process_frame_reference many (some (mp :: rest)) refs dist =
        (runMappings many dist 0 (mp :: rest) []).1 := rfl
    obtain ⟨hfilter, -⟩ := runMappings_spec many dist (mp :: rest) 0 [] k hk
    rw [hfm] at hfilter
    have hfilter' : (runMappings many dist 0 (mp :: rest) []).1.filter
        (atFace k) = [SwapEvent.mapped j0 k] := by
      rw [hfilter]
      simp
    have huniq : ∀ j', SwapEvent.mapped j' k ∈
        process_frame_reference many (some (mp :: rest)) refs dist → j' = j0 := by
      intro j' hmem
      rw [hpf] at hmem
      have hmf : SwapEvent.mapped j' k ∈
          (runMappings many dist 0 (mp :: rest) []).1.filter (atFace k) :=
        List.mem_filter.mpr ⟨hmem, by simp [atFace]⟩
      rw [hfilter'] at hmf
      simp at hmf
      exact hmf
    refine ⟨j0, hle, by rw [hpf]; exact hfilter', huniq, ?_, hex, hmin⟩
    intro hmem
    have := huniq j hmem
    omega

/-- C2 (amended): with a non-empty `face_mappings` list, the reference
branch of `process_frame` never invokes the legacy single-reference
behaviour: every swap it performs comes from a mapping, and when no
mapping matches any detected face in the frame it swaps nothing at all
(no fallback to the stored reference faces); the legacy
`find_similar_faces` path runs only when `face_mappings` is absent (or
empty). -/
theorem no_frame_fallback (many : List Face) (ms : List FaceMapping)
    (refs : List Face) (dist : ℚ) (hne : ms ≠ []) :
    (∀ e ∈ process_frame_reference many (some ms) refs dist,
      ∃ a b, e = .mapped a b) ∧
    ((∀ mp ∈ ms, ∀ f ∈ many, matchesB mp f dist = false) →
      process_frame_reference many (some ms) refs dist = []) ∧
    process_frame_reference many none refs dist =
      (find_similar_faces many refs dist).map SwapEvent.legacy := by
  cases ms with
  | nil => exact absurd rfl hne
  | cons mp rest =>
    refine ⟨?_, ?_, rfl⟩
    · intro e he
      exact runMappings_events_shape many dist (mp :: rest) 0 [] e he
    · intro hnm
      have h0 := runMappings_no_match many dist (mp :: rest) hnm 0 []
      show (runMappings many dist 0 (mp :: rest) []).1 = []
      rw [h0]

/-- A detected face with normalized embedding `(1, 0)`. -/
def faceA : Face := ⟨[1, 0]⟩

/-- A reference face orthogonal to `faceA` (similarity 1). -/
def refFaceB : Face := ⟨[0, 1]⟩

/-- A mapping from `faceA` to the dissimilar reference `refFaceB`, with
the default threshold. -/
def mappingAB : FaceMapping := ⟨some faceA, some refFaceB, none⟩

/-- Counterexample for C2 as frozen: a frame with one detected face
(`faceA`) and one non-matching mapping produces *no* swap, although the
detected face is similar (distance 0 < 0.3) to a stored reference face
and the legacy single-reference behaviour — which runs on the very same
inputs with no mappings — would swap it.  The claimed fallback does not
exist. -/
theorem no_fallback_counterexample :
    process_frame_reference [faceA] (some [mappingAB]) [faceA] (3 / 10) = [] ∧
    process_frame_reference [faceA] none [faceA] (3 / 10) =
      [SwapEvent.legacy 0] ∧
    similarity faceA faceA < 3 / 10 ∧
    ¬ similarity faceA refFaceB < 3 / 10 := by
  have h2 : similarity faceA faceA < 3 / 10 := by
    norm_num [similarity, dotProd, faceA]
  have h1 : ¬ similarity faceA refFaceB < 3 / 10 := by
    norm_num [similarity, dotProd, faceA, refFaceB]
  refine ⟨?_, ?_, h2, h1⟩
  · simp [process_frame_reference, runMappings, mapFaces, mappingAB, h1]
  · simp [process_frame_reference, find_similar_faces, List.range_succ, h2]

/-- Witness for C2's amended statement on the same concrete frame. -/
theorem no_frame_fallback_witness :
    process_frame_reference [faceA] (some [mappingAB]) [faceA] (3 / 10) = [] ∧
    process_frame_reference [faceA] none [faceA] (3 / 10) =
      (find_similar_faces [faceA] [faceA] (3 / 10)).map SwapEvent.legacy :=
  ⟨(no_frame_fallback [faceA] [mappingAB] [faceA] (3 / 10) (by decide)).2.1
      (by
        intro mp hmp f hf
        simp only [List.mem_singleton] at hmp hf
        subst hmp
        subst hf
        norm_num [matchesB, mappingAB, similarity, dotProd, faceA, refFaceB]),
    (no_frame_fallback [faceA] [mappingAB] [faceA] (3 / 10) (by decide)).2.2⟩

/-- A detected face with normalized embedding `(1, 0)`, for the
exclusivity witness. -/
def faceC : Face := ⟨[1, 0]⟩

/-- A mapping whose reference is `faceC` itself (similarity 0). -/
def mappingCC : FaceMapping := ⟨some faceC, some faceC, none⟩

/-- Witness for C4: two identical mappings both matching the single
detected face; the first claims it, the second does not re-swap it. -/
theorem multi_mapping_claim_exclusivity_witness :
    ∃ j0, j0 ≤ 0 ∧
      (process_frame_reference [faceC] (some [mappingCC, mappingCC]) []
        (3 / 10)).filter (atFace 0) = [SwapEvent.mapped j0 0] ∧
      (∀ j', SwapEvent.mapped j' 0 ∈
        process_frame_reference [faceC] (some [mappingCC, mappingCC]) []
          (3 / 10) → j' = j0) ∧
      SwapEvent.mapped 1 0 ∉
        process_frame_reference [faceC] (some [mappingCC, mappingCC]) []
          (3 / 10) ∧
      (∃ m0, [mappingCC, mappingCC].get? j0 = some m0 ∧
        matchesB m0 faceC (3 / 10) = true) ∧
      (∀ l m', l < j0 → [mappingCC, mappingCC].get? l = some m' →
        matchesB m' faceC (3 / 10) = false) :=
  multi_mapping_claim_exclusivity [faceC] [mappingCC, mappingCC] [] (3 / 10)
    0 1 0 mappingCC mappingCC (by norm_num) (by decide) rfl rfl
    (by norm_num [matchesB, mappingCC, faceC, similarity, dotProd])
    (by norm_num [matchesB, mappingCC, faceC, similarity, dotProd])

/-! ## Serverless job handler (`runpod_handler.py`, `handler`)

`handler(job)` extracts `source_url`/`target_url`/`resolution`/`model`
from `job['input']`, raises `ValueError` for a falsy URL or a
resolution without exactly one `'x'`, and its `except Exception`
handler converts any exception to a result dict — one that contains
`error` *and* `traceback: traceback.format_exc()`.  On valid input it
returns `process_request(...)`'s `ProcessingResult.to_dict()` plus
`job_id`.  `process_request` (downloads, `process_face_swap`, storage
upload) is the external world here, passed in as a function. -/

/-- The `input` object of a serverless job. -/
structure JobInput where
  source_url : Option String
  target_url : Option String
  resolution : Option String
  model : Option String
  deriving Repr, DecidableEq

/-- `job_input = job.get('input', {})` default. -/
def JobInput.empty : JobInput := ⟨none, none, none, none⟩

/-- A serverless job: `{'id': ..., 'input': {...}}`. -/
structure Job where
  id : Option String
  input : Option JobInput
  deriving Repr, DecidableEq

/-- A `ProcessingResult` as `handler` receives it from
`process_request`: status, optional output path / timing / error /
formatted traceback, and whether metadata is attached. -/
structure ProcResult where
  status : String
  output_path : Option String
  processing_time : Option ℚ
  error : Option String
  tb : Option String
  metadata : Bool
  deriving Repr, DecidableEq

/-- The dict `handler` returns: a `ProcessingResult.to_dict()` (or the
`except`-branch failure dict) with `job_id` added. -/
structure HandlerResult where
  status : String
  output_path : Option String
  processing_time : Option ℚ
  error : Option String
  tb : Option String
  metadata : Bool
  job_id : String
  deriving Repr, DecidableEq

/-- `resolution.count('x')`. -/
def countX (s : String) : Nat := (s.toList.filter fun c => c = 'x').length

/-- Stand-in for the non-empty string `traceback.format_exc()` produces. -/
def TRACEBACK : String := "Traceback (most recent call last): ValueError"

/-- `handler(job)`.  `process` is `handler_instance.process_request`.
The `except Exception` branch returns
`{'status': '失败', 'error': str(error), 'traceback': traceback.format_exc(), 'job_id': job_id}`. -/
def handler (job : Job)
    (process : String → String → String → String → ProcResult) : HandlerResult :=
  let job_id := job.id.getD "未知任务"
  let job_input := job.input.getD JobInput.empty
  let resolution := job_input.resolution.getD "1024x1024"
  let model := job_input.model.getD "inswapper_128_fp16"
  -- if not source_url or not target_url: raise ValueError(...)
  if job_input.source_url = none ∨ job_input.source_url = some "" ∨
      job_input.target_url = none ∨ job_input.target_url = some "" then
    ⟨"失败", none, none, some "source_url 和 target_url 是必需的参数",
      some TRACEBACK, false, job_id⟩
  -- if not resolution.count('x') == 1: raise ValueError(...)
  else if countX resolution ≠ 1 then
    ⟨"失败", none, none, some "resolution 格式错误，应为 widthxheight",
      some TRACEBACK, false, job_id⟩
  else
    let r := process (job_input.source_url.getD "") (job_input.target_url.getD "")
      resolution model
    ⟨r.status, r.output_path, r.processing_time, r.error, r.tb, r.metadata, job_id⟩

/-- C3 (amended): `handler` always returns a structured result object
carrying the job id (it never lets an exception escape — it is a total
function of the job and the processing outcome); a job missing
`source_url` or `target_url` (or with an empty one), and a job whose
resolution string does not contain exactly one `'x'`, yield an
InvalidInput-style failure result with a human-readable error string —
but that result also carries the formatted stack trace in its
`traceback` field, contrary to the frozen claim. -/
theorem handler_invalid_input (job : Job)
    (process : String → String → String → String → ProcResult) :
    (handler job process).job_id = job.id.getD "未知任务" ∧
    (((job.input.getD JobInput.empty).source_url = none ∨
      (job.input.getD JobInput.empty).source_url = some "" ∨
      (job.input.getD JobInput.empty).target_url = none ∨
      (job.input.getD JobInput.empty).target_url = some "") →
      (handler job process).status = "失败" ∧
      (handler job process).error ≠ none ∧
      (handler job process).tb = some TRACEBACK) ∧
    (countX ((job.input.getD JobInput.empty).resolution.getD "1024x1024") ≠ 1 →
      (handler job process).status = "失败" ∧
      (handler job process).error ≠ none ∧
      (handler job process).tb = some TRACEBACK) := by
  refine ⟨?_, ?_, ?_⟩
  · unfold handler
    dsimp only
    split_ifs <;> rfl
  · intro hmiss
    unfold handler
    dsimp only
    rw [if_pos hmiss]
    exact ⟨rfl, by simp, rfl⟩
  · intro hres
    unfold handler
    dsimp only
    by_cases h1 : (job.input.getD JobInput.empty).source_url = none ∨
        (job.input.getD JobInput.empty).source_url = some "" ∨
        (job.input.getD JobInput.empty).target_url = none ∨
        (job.input.getD JobInput.empty).target_url = some ""
    · rw [if_pos h1]
      exact ⟨rfl, by simp, rfl⟩
    · rw [if_neg h1, if_pos hres]
      exact ⟨rfl, by simp, rfl⟩

/-- Counterexample for C3 as frozen: for a job missing `source_url`,
the structured failure result `handler` returns *does* contain a raw
stack trace (`traceback.format_exc()`) under its `traceback` key. -/
theorem handler_traceback_counterexample :
    (handler ⟨some "job-1", some ⟨none, some "http://t", none, none⟩⟩
      (fun _ _ _ _ => ⟨"成功", some "/out.jpg", some 1, none, none, false⟩)).tb =
      some TRACEBACK ∧
    TRACEBACK ≠ "" :=
  ⟨rfl, by decide⟩

/-- Witness for C3's amended statement: a job missing `source_url` and
a job with resolution `"1024"` both yield failure results with an error
string and the traceback field. -/
theorem handler_invalid_input_witness :
    ((handler ⟨some "job-1", some ⟨none, some "http://t", none, none⟩⟩
        (fun _ _ _ _ => ⟨"成功", some "/out.jpg", some 1, none, none, false⟩)).status = "失败" ∧
      (handler ⟨some "job-1", some ⟨none, some "http://t", none, none⟩⟩
        (fun _ _ _ _ => ⟨"成功", some "/out.jpg", some 1, none, none, false⟩)).error ≠ none ∧
      (handler ⟨some "job-1", some ⟨none, some "http://t", none, none⟩⟩
        (fun _ _ _ _ => ⟨"成功", some "/out.jpg", some 1, none, none, false⟩)).tb = some TRACEBACK) ∧
    ((handler ⟨some "job-2", some ⟨some "http://s", some "http://t", some "1024", none⟩⟩
        (fun _ _ _ _ => ⟨"成功", some "/out.jpg", some 1, none, none, false⟩)).status = "失败" ∧
      (handler ⟨some "job-2", some ⟨some "http://s", some "http://t", some "1024", none⟩⟩
        (fun _ _ _ _ => ⟨"成功", some "/out.jpg", some 1, none, none, false⟩)).error ≠ none ∧
      (handler ⟨some "job-2", some ⟨some "http://s", some "http://t", some "1024", none⟩⟩
        (fun _ _ _ _ => ⟨"成功", some "/out.jpg", some 1, none, none, false⟩)).tb = some TRACEBACK) :=
  ⟨(handler_invalid_input _ _).2.1 (Or.inl rfl),
    (handler_invalid_input _ _).2.2 (by decide)⟩

end FaceFusionSpec
